import Mathlib

/-!
# Verification of the JCC (Jackson Cross-Cylinder) simulator core logic

Shallow embedding of `src/script.js`: the optometric angle math
(`roundTo5Degrees`, `getDisplayAxis`), the JCC red/green meridian geometry
(`getJCCRedLineAxis`, `getJCCGreenLineAxis`), and the tutor state machine
(`nextStep`, slider drag handlers, button click handlers) together with
theorems about them.

Conventions of the embedding:
* JS numbers holding angles are modelled as `Int`.  All angles flowing
  through the embedded functions are integers in the source as well
  (`svgCoordsToOptometricAxis` ends in `Math.round`, `roundTo5Degrees`
  produces multiples of 5).
* Dioptric powers step in exact quarters (0.25), which are exactly
  representable IEEE doubles, so sphere/cylinder are modelled as `Int`
  hundredths of a diopter (initial cylinder −2.00 D is `-200`).
* JS `x % y` truncates toward zero (the remainder keeps the sign of the
  dividend); it is modelled by `Int.tmod`.
* JS `Math.round x = ⌊x + 1/2⌋`.  For an integer `angle`,
  `Math.round (angle / 5) = ⌊(angle/5) + 1/2⌋ = ⌊(2*angle + 5) / 10⌋`,
  and Lean's `Int` division `/` by the positive literal `10` is exactly
  this floor.  (The JS double quotient `angle/5` is never a half-integer,
  so the tiny rounding error of the double division cannot change the
  result of `Math.round`.)
-/

/-- Embeds `roundTo5Degrees` (src/script.js:70): `Math.round(angle / 5) * 5`,
rounding an angle to the nearest 5-degree increment. -/
def roundTo5Degrees (angle : Int) : Int :=
  5 * ((2 * angle + 5) / 10)

/-- Embeds `getDisplayAxis` (src/script.js:80): round to 5°, fold with the
JS `%` operator into `(-180, 180)`, shift negatives up by 180, and report a
folded 0 as 180. -/
def getDisplayAxis (angle : Int) : Int :=
  let d1 := Int.tmod (roundTo5Degrees angle) 180
  let d2 := if d1 < 0 then d1 + 180 else d1
  if d2 = 0 then 180 else d2

/-- Embeds `getJCCRedLineAxis` (src/script.js:281), parametrised by the two
globals it reads (`jccHandleAngle`, `jccFlipped`): the effective minus
cylinder axis, −45° from the handle in Position 1 and +45° in Position 2. -/
def getJCCRedLineAxis (jccHandleAngle : Int) (jccFlipped : Bool) : Int :=
  let redLineOffset : Int := if !jccFlipped then -45 else 45
  getDisplayAxis (jccHandleAngle + redLineOffset)

/-- Embeds `getJCCGreenLineAxis` (src/script.js:296): the effective plus
cylinder axis, +45° from the handle in Position 1 and −45° in Position 2. -/
def getJCCGreenLineAxis (jccHandleAngle : Int) (jccFlipped : Bool) : Int :=
  let greenLineOffset : Int := if !jccFlipped then 45 else -45
  getDisplayAxis (jccHandleAngle + greenLineOffset)

/-! ## Arithmetic facts about the angle math -/

/-- The truncating fold plus negative-shift of `getDisplayAxis` agrees with
the Euclidean remainder. -/
theorem tmod_shift_eq_emod (d : Int) :
    (if Int.tmod d 180 < 0 then Int.tmod d 180 + 180 else Int.tmod d 180) = d % 180 := by
  rcases le_or_lt 0 d with hd | hd
  · rw [Int.tmod_eq_emod hd (by norm_num)]
    have := Int.emod_nonneg d (show (180 : Int) ≠ 0 by norm_num)
    omega
  · have h1 : Int.tmod d 180 = d - 180 * Int.tdiv d 180 := Int.tmod_def d 180
    have h2 : Int.tdiv d 180 = -((-d) / 180) := by
      have h3 := Int.neg_tdiv (-d) 180
      rw [neg_neg] at h3
      rw [h3, Int.tdiv_eq_ediv (by omega) (by norm_num)]
    rw [h1, h2]
    omega

/-- `getDisplayAxis` in closed form over the Euclidean remainder. -/
theorem getDisplayAxis_eq (a : Int) :
    getDisplayAxis a =
      if roundTo5Degrees a % 180 = 0 then 180 else roundTo5Degrees a % 180 := by
  simp only [getDisplayAxis]
  rw [tmod_shift_eq_emod]

/-- `roundTo5Degrees` always yields a multiple of 5. -/
theorem roundTo5Degrees_mod5 (a : Int) : roundTo5Degrees a % 5 = 0 := by
  unfold roundTo5Degrees
  exact Int.mul_emod_right 5 _

/-- `roundTo5Degrees` fixes multiples of 5. -/
theorem roundTo5Degrees_fix (a : Int) (h : a % 5 = 0) : roundTo5Degrees a = a := by
  obtain ⟨k, hk⟩ : (5 : Int) ∣ a := Int.dvd_of_emod_eq_zero h
  subst hk
  unfold roundTo5Degrees
  have h10 : 2 * (5 * k) + 5 = 5 + k * 10 := by ring
  rw [h10, Int.add_mul_ediv_right 5 k (by norm_num)]
  norm_num

/-- `roundTo5Degrees` commutes with shifting by 180. -/
theorem roundTo5Degrees_add_180 (a : Int) :
    roundTo5Degrees (a + 180) = roundTo5Degrees a + 180 := by
  unfold roundTo5Degrees
  have h10 : 2 * (a + 180) + 5 = (2 * a + 5) + 36 * 10 := by ring
  rw [h10, Int.add_mul_ediv_right _ 36 (show (10:Int) ≠ 0 by norm_num)]
  ring

/-- `getDisplayAxis` lands in `{5, 10, …, 180}`: a multiple of 5 between
5 and 180. -/
theorem getDisplayAxis_mem (a : Int) :
    getDisplayAxis a % 5 = 0 ∧ 5 ≤ getDisplayAxis a ∧ getDisplayAxis a ≤ 180 := by
  rw [getDisplayAxis_eq]
  have h5 := roundTo5Degrees_mod5 a
  obtain ⟨k, hk⟩ : (5 : Int) ∣ roundTo5Degrees a := Int.dvd_of_emod_eq_zero h5
  rw [hk]
  have h36 : (180 : Int) = 5 * 36 := by norm_num
  rw [h36, Int.mul_emod_mul_of_pos k 36 (by norm_num)]
  have hlo := Int.emod_nonneg k (show (36:Int) ≠ 0 by norm_num)
  have hhi := Int.emod_lt_of_pos k (show (0:Int) < 36 by norm_num)
  constructor
  · split
    · norm_num
    · exact Int.mul_emod_right 5 _
  · split <;> omega

/-- `getDisplayAxis` is 180-periodic. -/
theorem getDisplayAxis_add_180 (a : Int) :
    getDisplayAxis (a + 180) = getDisplayAxis a := by
  rw [getDisplayAxis_eq, getDisplayAxis_eq, roundTo5Degrees_add_180]
  have h : (roundTo5Degrees a + 180) % 180 = roundTo5Degrees a % 180 := by omega
  rw [h]

/-- The residue of `getDisplayAxis a` mod 180 agrees with that of the
rounded input. -/
theorem getDisplayAxis_emod (a : Int) :
    getDisplayAxis a % 180 = roundTo5Degrees a % 180 := by
  rw [getDisplayAxis_eq]
  split
  · omega
  · exact Int.emod_emod_of_dvd _ dvd_rfl

/-! ## Claims about the pure angle math (C4, C8, C5, C9) -/

/-- C4: for every integer `a` in `[-1000, 1000]`, `getDisplayAxis a` (the
spec's `toOptometricAxis`) is a multiple of 5 in `[5, 180]` and equals
`getDisplayAxis (a + 180)`; in particular `getDisplayAxis` maps 0, 180 and
360 to 180 — an angle folding to exactly 0 is reported as 180, never 0. -/
theorem claim_C4_axis_fold_range_period (a : Int)
    (hlo : -1000 ≤ a) (hhi : a ≤ 1000) :
    getDisplayAxis a % 5 = 0 ∧ 5 ≤ getDisplayAxis a ∧ getDisplayAxis a ≤ 180 ∧
    getDisplayAxis a = getDisplayAxis (a + 180) ∧
    getDisplayAxis 0 = 180 ∧ getDisplayAxis 180 = 180 ∧ getDisplayAxis 360 = 180 := by
  obtain ⟨m1, m2, m3⟩ := getDisplayAxis_mem a
  exact ⟨m1, m2, m3, (getDisplayAxis_add_180 a).symm, by decide, by decide, by decide⟩

/-- Witness for C4 at the concrete input `a = 37`
(`getDisplayAxis 37 = 35`). -/
theorem claim_C4_witness :
    (-1000 : Int) ≤ 37 ∧ (37 : Int) ≤ 1000 ∧
    (getDisplayAxis 37 % 5 = 0 ∧ 5 ≤ getDisplayAxis 37 ∧ getDisplayAxis 37 ≤ 180 ∧
      getDisplayAxis 37 = getDisplayAxis (37 + 180) ∧
      getDisplayAxis 0 = 180 ∧ getDisplayAxis 180 = 180 ∧ getDisplayAxis 360 = 180) :=
  ⟨by norm_num, by norm_num,
    claim_C4_axis_fold_range_period 37 (by norm_num) (by norm_num)⟩

/-- C8: `getDisplayAxis` (the spec's `toOptometricAxis`) is idempotent:
refolding an already-folded axis leaves it unchanged. -/
theorem claim_C8_fold_idempotent (x : Int) :
    getDisplayAxis (getDisplayAxis x) = getDisplayAxis x := by
  obtain ⟨h5, hlo, hhi⟩ := getDisplayAxis_mem x
  rw [getDisplayAxis_eq, roundTo5Degrees_fix _ h5]
  rcases eq_or_lt_of_le hhi with h180 | h180
  · rw [h180]; norm_num
  · rw [Int.emod_eq_of_lt (by omega) h180, if_neg (by omega)]

/-- Helper for C5: folding the difference of two folded, 5°-snapped angles
whose raw difference is ≡ 90 (mod 180) always yields exactly 90. -/
theorem getDisplayAxis_sub_eq_90 (x y : Int) (hx : x % 5 = 0) (hy : y % 5 = 0)
    (hd : (x - y) % 180 = 90) :
    getDisplayAxis (getDisplayAxis x - getDisplayAxis y) = 90 := by
  obtain ⟨px5, pxlo, pxhi⟩ := getDisplayAxis_mem x
  obtain ⟨py5, pylo, pyhi⟩ := getDisplayAxis_mem y
  have hx' : getDisplayAxis x % 180 = x % 180 := by
    rw [getDisplayAxis_emod, roundTo5Degrees_fix _ hx]
  have hy' : getDisplayAxis y % 180 = y % 180 := by
    rw [getDisplayAxis_emod, roundTo5Degrees_fix _ hy]
  have hsub : (getDisplayAxis x - getDisplayAxis y) % 180 = 90 := by
    rw [Int.sub_emod, hx', hy', ← Int.sub_emod, hd]
  have hsub5 : (getDisplayAxis x - getDisplayAxis y) % 5 = 0 := by omega
  rw [getDisplayAxis_eq, roundTo5Degrees_fix _ hsub5, hsub]
  norm_num

/-- C5: for every 5°-snapped handle angle in `[0, 180]` and both flip
states, the folded difference of the red and green meridian axes is exactly
90° (the two JCC lines are perpendicular), and toggling `flipped` swaps the
roles of the red and green lines. -/
theorem claim_C5_red_green_perpendicular (h : Int) (f : Bool)
    (h0 : 0 ≤ h) (h180 : h ≤ 180) (h5 : h % 5 = 0) :
    getDisplayAxis (getJCCRedLineAxis h f - getJCCGreenLineAxis h f) = 90 ∧
    getJCCRedLineAxis h (!f) = getJCCGreenLineAxis h f ∧
    getJCCGreenLineAxis h (!f) = getJCCRedLineAxis h f := by
  refine ⟨?_, ?_, ?_⟩
  · cases f
    · simp only [getJCCRedLineAxis, getJCCGreenLineAxis, Bool.not_false, if_true]
      exact getDisplayAxis_sub_eq_90 (h + -45) (h + 45) (by omega) (by omega) (by omega)
    · simp only [getJCCRedLineAxis, getJCCGreenLineAxis, Bool.not_true, if_false]
      exact getDisplayAxis_sub_eq_90 (h + 45) (h + -45) (by omega) (by omega) (by omega)
  · cases f <;> rfl
  · cases f <;> rfl

/-- Witness for C5 at handle angle 90, unflipped (red at 45°, green at
135°, folded difference 90°). -/
theorem claim_C5_witness :
    (0 : Int) ≤ 90 ∧ (90 : Int) ≤ 180 ∧ (90 : Int) % 5 = 0 ∧
    (getDisplayAxis (getJCCRedLineAxis 90 false - getJCCGreenLineAxis 90 false) = 90 ∧
      getJCCRedLineAxis 90 (!false) = getJCCGreenLineAxis 90 false ∧
      getJCCGreenLineAxis 90 (!false) = getJCCRedLineAxis 90 false) :=
  ⟨by norm_num, by norm_num, by norm_num,
    claim_C5_red_green_perpendicular 90 false (by norm_num) (by norm_num) (by norm_num)⟩

/-- C9: toggling the flip flag twice restores the original red and green
line axes for every fixed handle angle — flipping is an involution on the
derived JCC geometry. -/
theorem claim_C9_flip_involution (h : Int) (f : Bool) :
    getJCCRedLineAxis h (!(!f)) = getJCCRedLineAxis h f ∧
    getJCCGreenLineAxis h (!(!f)) = getJCCGreenLineAxis h f := by
  cases f <;> exact ⟨rfl, rfl⟩

/-! ## State-machine embedding of the tutor and its event handlers

The module-level mutable variables of `src/script.js` (lines 1–7 and 53–54)
and the enabled/disabled status of each interactive control become one
record.  Powers are in hundredths of a diopter.  An enabled flag `true`
means the DOM control is clickable (`disabled = false`, respectively the
slider div lacking the `disabled` CSS class). -/
structure SimState where
  currentSphere : Int
  currentCylinder : Int
  currentAxis : Int
  jccHandleAngle : Int
  jccFlipped : Bool
  tutorStep : Nat
  isDraggingJCC : Bool
  isDraggingLens : Bool
  flipEnabled : Bool
  jccSliderEnabled : Bool
  lensSliderEnabled : Bool
  increasePowerEnabled : Bool
  decreasePowerEnabled : Bool
  confirmAxisEnabled : Bool
  confirmPowerEnabled : Bool
  okEnabled : Bool
  startEnabled : Bool
  notificationVisible : Bool
  deriving DecidableEq, Repr

/-- The two circular SVG sliders. -/
inductive Slider where
  | jcc
  | lens
  deriving DecidableEq, Repr

/-- Embeds `disableAllControls` (src/script.js:245): every interactive
control becomes disabled. -/
def disableAllControls (s : SimState) : SimState :=
  { s with
    flipEnabled := false
    jccSliderEnabled := false
    lensSliderEnabled := false
    increasePowerEnabled := false
    decreasePowerEnabled := false
    confirmAxisEnabled := false
    confirmPowerEnabled := false
    okEnabled := false
    startEnabled := false }

/-- Embeds `showJCCNotification` (src/script.js:229): show the blocking
notification, disable everything, then re-enable only its OK button.  (The
message text and the stored callback are presentation; every call site
passes `nextStep` as the callback, which `clickNotificationOk` below
performs.) -/
def showJCCNotification (s : SimState) : SimState :=
  { disableAllControls s with notificationVisible := true, okEnabled := true }

/-- Embeds the `switch (tutorStep)` body of `nextStep`
(src/script.js:492-730): for the step just entered, the entry mutation of
`jccFlipped` and the `enableControls`/`showJCCNotification` call of that
step.  Display-only statements (instruction text, thumb rendering) have no
state effect.  The 500 ms presentation delay before enabling the slider in
case 1 is modelled as synchronous (spec §5 calls it cosmetic). -/
def stepEntry (s : SimState) : SimState :=
  match s.tutorStep with
  | 1 => { s with jccSliderEnabled := true }
  | 2 => { s with flipEnabled := true, jccFlipped := false }
  | 3 => showJCCNotification s
  | 4 => { s with flipEnabled := true, jccFlipped := true }
  | 5 => showJCCNotification s
  | 6 => { s with flipEnabled := true, jccFlipped := false }
  | 7 => showJCCNotification s
  | 8 => { s with lensSliderEnabled := true }
  | 9 => { s with jccSliderEnabled := true }
  | 10 => { s with flipEnabled := true, jccFlipped := false }
  | 11 => showJCCNotification s
  | 12 => { s with flipEnabled := true, jccFlipped := true }
  | 13 => showJCCNotification s
  | 14 => { s with flipEnabled := true, jccFlipped := false }
  | 15 => showJCCNotification s
  | 16 => { s with confirmAxisEnabled := true }
  | 17 => { s with jccSliderEnabled := true }
  | 18 => { s with flipEnabled := true, jccFlipped := false }
  | 19 => showJCCNotification s
  | 20 => { s with flipEnabled := true, jccFlipped := true }
  | 21 => showJCCNotification s
  | 22 => { s with flipEnabled := true, jccFlipped := false }
  | 23 => showJCCNotification s
  | 24 => { s with increasePowerEnabled := true, decreasePowerEnabled := true }
  | 25 => { s with flipEnabled := true, jccFlipped := false }
  | 26 => showJCCNotification s
  | 27 => { s with flipEnabled := true, jccFlipped := true }
  | 28 => showJCCNotification s
  | 29 => { s with flipEnabled := true, jccFlipped := false }
  | 30 => showJCCNotification s
  | 31 => { s with increasePowerEnabled := true, decreasePowerEnabled := true }
  | 32 => { s with flipEnabled := true, jccFlipped := false }
  | 33 => showJCCNotification s
  | 34 => { s with flipEnabled := true, jccFlipped := true }
  | 35 => showJCCNotification s
  | 36 => { s with flipEnabled := true, jccFlipped := false }
  | 37 => showJCCNotification s
  | 38 => { s with confirmPowerEnabled := true }
  | 39 => disableAllControls s
  | _ => s

/-- Embeds `nextStep` (src/script.js:488): increment the step counter,
disable all controls, then run the new step's entry behaviour. -/
def nextStep (s : SimState) : SimState :=
  stepEntry (disableAllControls { s with tutorStep := s.tutorStep + 1 })

/-- Embeds `checkSliderValueForNextStep` (src/script.js:455): after a
slider release, advance on the four gated steps when the committed state
value matches that step's target. -/
def checkSliderValueForNextStep (s : SimState) : SimState :=
  if s.tutorStep = 1 then
    if s.jccHandleAngle = 180 then nextStep s else s
  else if s.tutorStep = 8 then
    if s.currentAxis = 5 then nextStep s else s
  else if s.tutorStep = 9 then
    if s.jccHandleAngle = 5 then nextStep s else s
  else if s.tutorStep = 17 then
    if s.jccHandleAngle = getDisplayAxis (s.currentAxis + 45) then nextStep s
    else s
  else s

/-- Embeds `startDrag` (src/script.js:364) for one slider.  `a` is the
integer result of `svgCoordsToOptometricAxis` on the mousedown coordinates
(src/script.js:335 ends with `Math.round`, so it is an integer in
`[0, 180]`).  When the slider's div carries the `disabled` class the
handler returns before touching anything; otherwise it raises the
corresponding dragging flag and immediately writes the 5°-snapped angle
into the state variable via `updateValueCallback` (src/script.js:438). -/
def startDrag (t : Slider) (a : Int) (s : SimState) : SimState :=
  match t with
  | Slider.jcc =>
      if s.jccSliderEnabled then
        { s with isDraggingJCC := true, jccHandleAngle := getDisplayAxis a }
      else s
  | Slider.lens =>
      if s.lensSliderEnabled then
        { s with isDraggingLens := true, currentAxis := getDisplayAxis a }
      else s

/-- Embeds the `moveHandler` closure inside `startDrag`
(src/script.js:373-400).  `t` identifies the slider whose `startDrag`
registered this handler (fixing `updateValueCallback`); `a` is the
`svgCoordsToOptometricAxis` value of the move coordinates.  If neither
dragging flag is set the handler returns; otherwise it writes the raw
(unsnapped) 0–180 angle into `jccHandleAngle` resp. `currentAxis` and
refreshes the thumb/text display. -/
def dragMove (t : Slider) (a : Int) (s : SimState) : SimState :=
  if ¬s.isDraggingJCC ∧ ¬s.isDraggingLens then s
  else
    match t with
    | Slider.jcc => { s with jccHandleAngle := a }
    | Slider.lens => { s with currentAxis := a }

/-- Embeds the `upHandler` closure inside `startDrag`
(src/script.js:402-423): clear both dragging flags, snap the dragged
slider's state variable to the 5° grid with `getDisplayAxis`, then run
`checkSliderValueForNextStep`. -/
def dragRelease (t : Slider) (s : SimState) : SimState :=
  checkSliderValueForNextStep
    (match t with
     | Slider.jcc =>
         { s with isDraggingJCC := false, isDraggingLens := false,
                  jccHandleAngle := getDisplayAxis s.jccHandleAngle }
     | Slider.lens =>
         { s with isDraggingJCC := false, isDraggingLens := false,
                  currentAxis := getDisplayAxis s.currentAxis })

/-- Embeds the flip button listener (src/script.js:745): ignore the click
while the button is disabled, otherwise toggle `jccFlipped` and call
`nextStep`. -/
def clickFlipJCC (s : SimState) : SimState :=
  if s.flipEnabled then nextStep { s with jccFlipped := !s.jccFlipped } else s

/-- Embeds the increase-power button listener (src/script.js:755): always
subtract 0.25 D from the cylinder, then advance iff the step is 24 or 31.
Note the handler itself never consults the button's disabled flag. -/
def clickIncreasePower (s : SimState) : SimState :=
  let s1 := { s with currentCylinder := s.currentCylinder - 25 }
  if s1.tutorStep = 24 ∨ s1.tutorStep = 31 then nextStep s1 else s1

/-- Embeds the decrease-power button listener (src/script.js:764): always
add 0.25 D to the cylinder; never advances.  Like increase-power, the
handler does not consult the disabled flag. -/
def clickDecreasePower (s : SimState) : SimState :=
  { s with currentCylinder := s.currentCylinder + 25 }

/-- Embeds the confirm-axis button listener (src/script.js:770): advance
iff the step is 16 and the lens axis is exactly 5°. -/
def clickConfirmAxis (s : SimState) : SimState :=
  if s.tutorStep = 16 ∧ s.currentAxis = 5 then nextStep s else s

/-- Embeds the confirm-power button listener (src/script.js:777): advance
iff the step is 38 and the cylinder is exactly −2.50 D. -/
def clickConfirmPower (s : SimState) : SimState :=
  if s.tutorStep = 38 ∧ s.currentCylinder = -250 then nextStep s else s

/-- Embeds the start-tutorial button listener (src/script.js:784): disable
the start button and call `nextStep`. -/
def clickStartTutorial (s : SimState) : SimState :=
  nextStep { s with startEnabled := false }

/-- Embeds the notification OK click (src/script.js:234-238): the `onclick`
handler exists only while the notification is shown; it hides the box,
clears itself, and runs the stored callback, which is `nextStep` at every
call site. -/
def clickNotificationOk (s : SimState) : SimState :=
  if s.notificationVisible then nextStep { s with notificationVisible := false }
  else s

/-- Embeds `init` (src/script.js:791) together with the initial values of
the module-level variables: the fixed starting prescription, all controls
disabled except the start button. -/
def initState : SimState :=
  { currentSphere := 0
    currentCylinder := -200
    currentAxis := 180
    jccHandleAngle := 90
    jccFlipped := false
    tutorStep := 0
    isDraggingJCC := false
    isDraggingLens := false
    flipEnabled := false
    jccSliderEnabled := false
    lensSliderEnabled := false
    increasePowerEnabled := false
    decreasePowerEnabled := false
    confirmAxisEnabled := false
    confirmPowerEnabled := false
    okEnabled := false
    startEnabled := true
    notificationVisible := false }

/-- The discrete external events the handlers of src/script.js respond to. -/
inductive Event where
  | startTutorial
  | flip
  | increasePower
  | decreasePower
  | confirmAxis
  | confirmPower
  | notificationOk
  | dragStart (t : Slider) (a : Int)
  | dragMove (t : Slider) (a : Int)
  | dragRelease (t : Slider)
  deriving DecidableEq, Repr

/-- Dispatches one event to its handler. -/
def applyEvent (e : Event) (s : SimState) : SimState :=
  match e with
  | Event.startTutorial => clickStartTutorial s
  | Event.flip => clickFlipJCC s
  | Event.increasePower => clickIncreasePower s
  | Event.decreasePower => clickDecreasePower s
  | Event.confirmAxis => clickConfirmAxis s
  | Event.confirmPower => clickConfirmPower s
  | Event.notificationOk => clickNotificationOk s
  | Event.dragStart t a => startDrag t a s
  | Event.dragMove t a => dragMove t a s
  | Event.dragRelease t => dragRelease t s

/-- Runs a whole session: `init` followed by a sequence of events. -/
def runEvents (evs : List Event) : SimState :=
  evs.foldl (fun s e => applyEvent e s) initState

/-- Models JS `Number.prototype.toFixed(2)` for a value held in exact
hundredths (all powers in the simulator are exact multiples of 0.25, which
doubles represent exactly, so `toFixed(2)` prints them this way). -/
def toFixed2 (v : Int) : String :=
  (if v < 0 then "-" else "") ++ toString (v.natAbs / 100) ++ "." ++
    (if v.natAbs % 100 < 10 then "0" else "") ++ toString (v.natAbs % 100)

/-- Embeds the current-prescription template literal of `updateLensDisplay`
(src/script.js:133). -/
def renderCurrentRX (s : SimState) : String :=
  toFixed2 s.currentSphere ++ " DS / " ++ toFixed2 s.currentCylinder ++
    " DC x " ++ toString (getDisplayAxis s.currentAxis) ++ "°"

/-- Embeds the final-prescription template literal of `nextStep` case 39
(src/script.js:723); textually identical to the current-prescription
template. -/
def renderFinalRX (s : SimState) : String :=
  toFixed2 s.currentSphere ++ " DS / " ++ toFixed2 s.currentCylinder ++
    " DC x " ++ toString (getDisplayAxis s.currentAxis) ++ "°"

/-! ## Frame lemmas about the tutor state machine -/

/-- The step-entry actions never touch the step counter, the prescription
values, the handle angle, or the dragging flags. -/
theorem stepEntry_frame (s : SimState) :
    (stepEntry s).tutorStep = s.tutorStep ∧
    (stepEntry s).currentSphere = s.currentSphere ∧
    (stepEntry s).currentCylinder = s.currentCylinder ∧
    (stepEntry s).currentAxis = s.currentAxis ∧
    (stepEntry s).jccHandleAngle = s.jccHandleAngle ∧
    (stepEntry s).isDraggingJCC = s.isDraggingJCC ∧
    (stepEntry s).isDraggingLens = s.isDraggingLens := by
  unfold stepEntry
  split <;> exact ⟨rfl, rfl, rfl, rfl, rfl, rfl, rfl⟩

/-- `nextStep` increments the step counter by exactly one. -/
theorem nextStep_tutorStep (s : SimState) :
    (nextStep s).tutorStep = s.tutorStep + 1 :=
  ((stepEntry_frame _).1).trans rfl

/-- `nextStep` never touches the sphere. -/
theorem nextStep_currentSphere (s : SimState) :
    (nextStep s).currentSphere = s.currentSphere :=
  ((stepEntry_frame _).2.1).trans rfl

/-- `nextStep` never touches the cylinder power. -/
theorem nextStep_currentCylinder (s : SimState) :
    (nextStep s).currentCylinder = s.currentCylinder :=
  ((stepEntry_frame _).2.2.1).trans rfl

/-- `nextStep` never touches the lens axis. -/
theorem nextStep_currentAxis (s : SimState) :
    (nextStep s).currentAxis = s.currentAxis :=
  ((stepEntry_frame _).2.2.2.1).trans rfl

/-- `nextStep` never touches the JCC handle angle. -/
theorem nextStep_jccHandleAngle (s : SimState) :
    (nextStep s).jccHandleAngle = s.jccHandleAngle :=
  ((stepEntry_frame _).2.2.2.2.1).trans rfl

/-- Full characterisation of `checkSliderValueForNextStep`: the step either
advances by one — exactly when one of the four step-specific target checks
passes — or stays, and the committed values and powers are untouched. -/
theorem checkSlider_spec (s : SimState) :
    ((checkSliderValueForNextStep s).tutorStep = s.tutorStep + 1 ∨
      (checkSliderValueForNextStep s).tutorStep = s.tutorStep) ∧
    ((checkSliderValueForNextStep s).tutorStep = s.tutorStep + 1 ↔
      ((s.tutorStep = 1 ∧ s.jccHandleAngle = 180) ∨
       (s.tutorStep = 8 ∧ s.currentAxis = 5) ∨
       (s.tutorStep = 9 ∧ s.jccHandleAngle = 5) ∨
       (s.tutorStep = 17 ∧ s.jccHandleAngle = getDisplayAxis (s.currentAxis + 45)))) ∧
    (checkSliderValueForNextStep s).jccHandleAngle = s.jccHandleAngle ∧
    (checkSliderValueForNextStep s).currentAxis = s.currentAxis ∧
    (checkSliderValueForNextStep s).currentSphere = s.currentSphere ∧
    (checkSliderValueForNextStep s).currentCylinder = s.currentCylinder := by
  unfold checkSliderValueForNextStep
  refine ⟨?_, ?_, ?_, ?_, ?_, ?_⟩ <;>
    split_ifs <;>
      simp_all [nextStep_tutorStep, nextStep_jccHandleAngle, nextStep_currentAxis,
        nextStep_currentSphere, nextStep_currentCylinder]

/-- No handler in the script ever writes `currentSphere`. -/
theorem applyEvent_currentSphere (e : Event) (s : SimState) :
    (applyEvent e s).currentSphere = s.currentSphere := by
  cases e with
  | startTutorial => exact nextStep_currentSphere _
  | flip =>
      simp only [applyEvent, clickFlipJCC]
      split_ifs
      · exact nextStep_currentSphere _
      · rfl
  | increasePower =>
      simp only [applyEvent, clickIncreasePower]
      split_ifs
      · exact (nextStep_currentSphere _).trans rfl
      · rfl
  | decreasePower => rfl
  | confirmAxis =>
      simp only [applyEvent, clickConfirmAxis]
      split_ifs
      · exact nextStep_currentSphere _
      · rfl
  | confirmPower =>
      simp only [applyEvent, clickConfirmPower]
      split_ifs
      · exact nextStep_currentSphere _
      · rfl
  | notificationOk =>
      simp only [applyEvent, clickNotificationOk]
      split_ifs
      · exact (nextStep_currentSphere _).trans rfl
      · rfl
  | dragStart t a =>
      cases t <;> simp only [applyEvent, startDrag] <;> split_ifs <;> rfl
  | dragMove t a =>
      cases t <;> simp only [applyEvent, dragMove] <;> split_ifs <;> rfl
  | dragRelease t =>
      cases t <;> exact ((checkSlider_spec _).2.2.2.2.1).trans rfl

/-! ## Claims about the event handlers (C3, C6, C7, C2, C1, C10) -/

/-- C3: a drag release commits the snapped angle of the dragged slider, and
the step counter advances by exactly one iff the committed state matches
the current step's target — handle 180° at step 1, lens axis 5° at step 8,
handle 5° at step 9, handle `getDisplayAxis (axis + 45)` at step 17 — and
otherwise (in particular at every other step) the committed value is
recorded and the step stays. -/
theorem claim_C3_release_commit_advance (s : SimState) (t : Slider) :
    ((dragRelease t s).jccHandleAngle =
        if t = Slider.jcc then getDisplayAxis s.jccHandleAngle
        else s.jccHandleAngle) ∧
    ((dragRelease t s).currentAxis =
        if t = Slider.lens then getDisplayAxis s.currentAxis
        else s.currentAxis) ∧
    ((dragRelease t s).tutorStep = s.tutorStep + 1 ∨
      (dragRelease t s).tutorStep = s.tutorStep) ∧
    ((dragRelease t s).tutorStep = s.tutorStep + 1 ↔
      ((s.tutorStep = 1 ∧ (dragRelease t s).jccHandleAngle = 180) ∨
       (s.tutorStep = 8 ∧ (dragRelease t s).currentAxis = 5) ∨
       (s.tutorStep = 9 ∧ (dragRelease t s).jccHandleAngle = 5) ∨
       (s.tutorStep = 17 ∧ (dragRelease t s).jccHandleAngle =
          getDisplayAxis ((dragRelease t s).currentAxis + 45)))) := by
  cases t with
  | jcc =>
      have hspec := checkSlider_spec
        { s with isDraggingJCC := false, isDraggingLens := false,
                 jccHandleAngle := getDisplayAxis s.jccHandleAngle }
      refine ⟨?_, ?_, ?_, ?_⟩
      · exact (hspec.2.2.1).trans (by simp)
      · exact (hspec.2.2.2.1).trans (by simp)
      · exact hspec.1
      · show _ ↔ _
        rw [show (dragRelease Slider.jcc s).jccHandleAngle =
              getDisplayAxis s.jccHandleAngle from (hspec.2.2.1).trans rfl,
            show (dragRelease Slider.jcc s).currentAxis = s.currentAxis from
              (hspec.2.2.2.1).trans rfl]
        exact hspec.2.1
  | lens =>
      have hspec := checkSlider_spec
        { s with isDraggingJCC := false, isDraggingLens := false,
                 currentAxis := getDisplayAxis s.currentAxis }
      refine ⟨?_, ?_, ?_, ?_⟩
      · exact (hspec.2.2.1).trans (by simp)
      · exact (hspec.2.2.2.1).trans (by simp)
      · exact hspec.1
      · show _ ↔ _
        rw [show (dragRelease Slider.lens s).jccHandleAngle =
              s.jccHandleAngle from (hspec.2.2.1).trans rfl,
            show (dragRelease Slider.lens s).currentAxis =
              getDisplayAxis s.currentAxis from (hspec.2.2.2.1).trans rfl]
        exact hspec.2.1

/-- C6: an increase-power click always lowers the cylinder by exactly
0.25 D and advances the step iff the step is 24 or 31; a decrease-power
click always raises the cylinder by exactly 0.25 D and never advances. -/
theorem claim_C6_power_buttons (s : SimState) :
    (clickIncreasePower s).currentCylinder = s.currentCylinder - 25 ∧
    ((clickIncreasePower s).tutorStep = s.tutorStep + 1 ↔
      (s.tutorStep = 24 ∨ s.tutorStep = 31)) ∧
    (¬(s.tutorStep = 24 ∨ s.tutorStep = 31) →
      (clickIncreasePower s).tutorStep = s.tutorStep) ∧
    (clickDecreasePower s).currentCylinder = s.currentCylinder + 25 ∧
    (clickDecreasePower s).tutorStep = s.tutorStep := by
  refine ⟨?_, ?_, ?_, rfl, rfl⟩ <;>
    simp only [clickIncreasePower] <;>
      split_ifs <;>
        simp_all [nextStep_tutorStep, nextStep_currentCylinder]

/-- Witness for C6's implication hypothesis at the initial state (step 0,
no advance, cylinder −2.00 → −2.25 resp. −1.75). -/
theorem claim_C6_witness :
    ¬(initState.tutorStep = 24 ∨ initState.tutorStep = 31) ∧
    (clickIncreasePower initState).tutorStep = initState.tutorStep :=
  ⟨by decide, (claim_C6_power_buttons initState).2.2.1 (by decide)⟩

/-- C7: a confirm-power click advances iff step = 38 and cylinder is
exactly −2.50 D (two −0.25 steps below the initial −2.00 D), a
confirm-axis click advances iff step = 16 and lens axis = 5°, and in every
other case the click leaves the whole state unchanged. -/
theorem claim_C7_confirm_buttons (s : SimState) :
    ((clickConfirmPower s).tutorStep = s.tutorStep + 1 ↔
      (s.tutorStep = 38 ∧ s.currentCylinder = -250)) ∧
    (¬(s.tutorStep = 38 ∧ s.currentCylinder = -250) → clickConfirmPower s = s) ∧
    ((clickConfirmAxis s).tutorStep = s.tutorStep + 1 ↔
      (s.tutorStep = 16 ∧ s.currentAxis = 5)) ∧
    (¬(s.tutorStep = 16 ∧ s.currentAxis = 5) → clickConfirmAxis s = s) ∧
    (-250 : Int) = initState.currentCylinder - 25 - 25 := by
  refine ⟨?_, ?_, ?_, ?_, by decide⟩ <;>
    simp only [clickConfirmPower, clickConfirmAxis] <;>
      split_ifs <;>
        simp_all [nextStep_tutorStep]

/-- Witness for C7's implication hypotheses at the initial state. -/
theorem claim_C7_witness :
    ¬(initState.tutorStep = 38 ∧ initState.currentCylinder = -250) ∧
    clickConfirmPower initState = initState :=
  ⟨by decide, (claim_C7_confirm_buttons initState).2.1 (by decide)⟩

/-- C2 counterexample: the increase-power click handler
(src/script.js:755) has no disabled-guard, so a click event delivered
while the button is disabled — as it is in the initial state — still
mutates the cylinder (−2.00 → −2.25), refuting the claim that every such
event leaves all state unchanged. -/
theorem claim_C2_counterexample :
    initState.increasePowerEnabled = false ∧
    (clickIncreasePower initState).currentCylinder ≠ initState.currentCylinder := by
  exact ⟨rfl, by decide⟩

/-- C2 as amended: only the flip-button listener and `startDrag` check the
disabled status and ignore the event; the power buttons mutate the cylinder
unconditionally, and the confirm buttons are gated solely by their
step/value predicate, not by the disabled flag. -/
theorem claim_C2_disabled_guards (s : SimState) (a : Int) :
    (s.flipEnabled = false → clickFlipJCC s = s) ∧
    (s.jccSliderEnabled = false → startDrag Slider.jcc a s = s) ∧
    (s.lensSliderEnabled = false → startDrag Slider.lens a s = s) ∧
    (clickIncreasePower s).currentCylinder = s.currentCylinder - 25 ∧
    (clickDecreasePower s).currentCylinder = s.currentCylinder + 25 ∧
    (¬(s.tutorStep = 16 ∧ s.currentAxis = 5) → clickConfirmAxis s = s) ∧
    (¬(s.tutorStep = 38 ∧ s.currentCylinder = -250) → clickConfirmPower s = s) := by
  refine ⟨?_, ?_, ?_, ?_, rfl, ?_, ?_⟩
  · intro h; simp [clickFlipJCC, h]
  · intro h; simp [startDrag, h]
  · intro h; simp [startDrag, h]
  · simp only [clickIncreasePower]
    split_ifs
    · exact (nextStep_currentCylinder _).trans rfl
    · rfl
  · intro h; simp only [clickConfirmAxis, if_neg h]
  · intro h; simp only [clickConfirmPower, if_neg h]

/-- Witness for C2's amended guards: in the initial state the flip button
is disabled and a flip click changes nothing. -/
theorem claim_C2_witness :
    initState.flipEnabled = false ∧ clickFlipJCC initState = initState :=
  ⟨rfl, (claim_C2_disabled_guards initState 0).1 rfl⟩

/-- C1 counterexample: with the JCC slider enabled, press at raw angle 100
(state becomes 100) and move to raw angle 37 — the move (preview) event
itself mutates the committed state variable `jccHandleAngle`
(src/script.js:387 calls `updateValueCallback` on every move), refuting
the claim that preview events never mutate `jccHandleAngle`. -/
theorem claim_C1_counterexample :
    (dragMove Slider.jcc 37
        (startDrag Slider.jcc 100
          { initState with jccSliderEnabled := true })).jccHandleAngle ≠
      (startDrag Slider.jcc 100
        { initState with jccSliderEnabled := true }).jccHandleAngle := by
  decide

/-- C1 as amended: a move (preview) event does write the raw 0–180 angle
into the dragged slider's state variable, but it never touches the step
counter, the flip state, the powers, or any control gate — no advance
predicate runs during a drag — and only the release event snaps the stored
angle to the 5° grid (and, per C3, evaluates the advance predicate). -/
theorem claim_C1_preview_commit (s : SimState) (t : Slider) (a : Int) :
    ((dragMove t a s).tutorStep = s.tutorStep ∧
     (dragMove t a s).jccFlipped = s.jccFlipped ∧
     (dragMove t a s).currentSphere = s.currentSphere ∧
     (dragMove t a s).currentCylinder = s.currentCylinder ∧
     (dragMove t a s).flipEnabled = s.flipEnabled ∧
     (dragMove t a s).jccSliderEnabled = s.jccSliderEnabled ∧
     (dragMove t a s).lensSliderEnabled = s.lensSliderEnabled ∧
     (dragMove t a s).increasePowerEnabled = s.increasePowerEnabled ∧
     (dragMove t a s).decreasePowerEnabled = s.decreasePowerEnabled ∧
     (dragMove t a s).confirmAxisEnabled = s.confirmAxisEnabled ∧
     (dragMove t a s).confirmPowerEnabled = s.confirmPowerEnabled ∧
     (dragMove t a s).notificationVisible = s.notificationVisible) ∧
    ((s.isDraggingJCC = true ∨ s.isDraggingLens = true) →
      dragMove Slider.jcc a s = { s with jccHandleAngle := a } ∧
      dragMove Slider.lens a s = { s with currentAxis := a }) ∧
    (dragRelease Slider.jcc s).jccHandleAngle = getDisplayAxis s.jccHandleAngle ∧
    (dragRelease Slider.lens s).currentAxis = getDisplayAxis s.currentAxis := by
  refine ⟨?_, ?_, ?_, ?_⟩
  · cases t <;> simp only [dragMove] <;> split_ifs <;>
      exact ⟨rfl, rfl, rfl, rfl, rfl, rfl, rfl, rfl, rfl, rfl, rfl, rfl⟩
  · intro h
    have hcond : ¬(¬s.isDraggingJCC ∧ ¬s.isDraggingLens) := by
      rcases h with h | h <;> simp [h]
    constructor <;> simp only [dragMove, if_neg hcond]
  · exact ((checkSlider_spec _).2.2.1).trans rfl
  · exact ((checkSlider_spec _).2.2.2.1).trans rfl

/-- Witness for C1's amended statement: a concrete mid-drag move at raw
angle 37 on the JCC slider. -/
theorem claim_C1_witness :
    ({ initState with isDraggingJCC := true } : SimState).isDraggingJCC = true ∧
    dragMove Slider.jcc 37 { initState with isDraggingJCC := true } =
      { initState with isDraggingJCC := true, jccHandleAngle := 37 } :=
  ⟨rfl, ((claim_C1_preview_commit { initState with isDraggingJCC := true }
      Slider.jcc 37).2.1 (Or.inl rfl)).1⟩

/-- Helper for C10: a prescription string rendered from a state with zero
sphere starts with "0.00 DS". -/
theorem renderCurrentRX_zero_sphere (s : SimState) (h : s.currentSphere = 0) :
    ∃ r, renderCurrentRX s = "0.00 DS" ++ r := by
  refine ⟨" / " ++ (toFixed2 s.currentCylinder ++
    (" DC x " ++ (toString (getDisplayAxis s.currentAxis) ++ "°"))), ?_⟩
  unfold renderCurrentRX
  rw [h]
  show "0.00" ++ " DS / " ++ _ ++ " DC x " ++ _ ++ "°" = _
  simp only [String.append_assoc]
  rw [← String.append_assoc "0.00" " DS / ", ← String.append_assoc "0.00 DS" " / "]
  rfl

/-- C10: no event handler or step-entry action ever writes the sphere, so
after any event sequence from `init` the sphere is still 0.00 and both the
current and the final rendered prescription strings begin with
"0.00 DS". -/
theorem claim_C10_sphere_never_mutated (evs : List Event) :
    (runEvents evs).currentSphere = 0 ∧
    (∃ r, renderCurrentRX (runEvents evs) = "0.00 DS" ++ r) ∧
    (∃ r, renderFinalRX (runEvents evs) = "0.00 DS" ++ r) := by
  have hall : ∀ (l : List Event) (s : SimState),
      (l.foldl (fun s e => applyEvent e s) s).currentSphere = s.currentSphere := by
    intro l
    induction l with
    | nil => intro s; rfl
    | cons e tl ih =>
        intro s
        rw [List.foldl_cons, ih, applyEvent_currentSphere]
  have h0 : (runEvents evs).currentSphere = 0 := (hall evs initState).trans rfl
  refine ⟨h0, renderCurrentRX_zero_sphere _ h0, ?_⟩
  obtain ⟨r, hr⟩ := renderCurrentRX_zero_sphere _ h0
  exact ⟨r, hr⟩
